import Mathlib

/-!
Verification of the symptom-checker chatbot core (`backend/chatbot.py`).

The Python class `SymptomCheckerBot` is embedded shallowly:
its mutable attributes (`session_in_scope`, `current_case`,
`conversation_history`) become an explicit `BotState` threaded through
`get_response`; the external embedding provider (`self.model.encode`) is a
function parameter returning `Except Unit` (an exception raised by the
provider propagates, as in the source, where no handler exists); the
cosine-similarity routine is likewise a numeric parameter over `Rat`
(the float values never matter for the properties proved here, only the
call structure, ordering and truncation).  Lowercasing models Python
`str.lower` on the ASCII range, which covers every vocabulary constant of
the source.
-/

/-- ASCII lowercasing of one character, as an explicit table (models Python
`str.lower` restricted to ASCII letters, the only case the source exercises). -/
def lowerChar (c : Char) : Char :=
  match c with
  | 'A' => 'a' | 'B' => 'b' | 'C' => 'c' | 'D' => 'd' | 'E' => 'e'
  | 'F' => 'f' | 'G' => 'g' | 'H' => 'h' | 'I' => 'i' | 'J' => 'j'
  | 'K' => 'k' | 'L' => 'l' | 'M' => 'm' | 'N' => 'n' | 'O' => 'o'
  | 'P' => 'p' | 'Q' => 'q' | 'R' => 'r' | 'S' => 's' | 'T' => 't'
  | 'U' => 'u' | 'V' => 'v' | 'W' => 'w' | 'X' => 'x' | 'Y' => 'y'
  | 'Z' => 'z'
  | c => c

/-- Python `message.lower()`. -/
def lowerStr (s : String) : String :=
  ⟨s.data.map lowerChar⟩

/-- A regex word character (`\w`): letter, digit or underscore (ASCII). -/
def isWordChar (c : Char) : Bool :=
  c.isAlphanum || c == '_'

/-- The literal `w` occurs at index `i` of `s`. -/
def matchesAt (w s : List Char) (i : Nat) : Bool :=
  (s.drop i).take w.length == w

/-- Python `needle in hay` on strings: substring containment. -/
def substr (needle hay : String) : Bool :=
  (List.range (hay.data.length + 1)).any (matchesAt needle.data hay.data)

/-- The literal `w` occurs at index `i` of `s` with `\b` on both sides
(for literals beginning and ending in a word character). -/
def boundedAt (w s : List Char) (i : Nat) : Bool :=
  matchesAt w s i &&
  (i == 0 || !isWordChar (s.getD (i - 1) ' ')) &&
  !isWordChar (s.getD (i + w.length) ' ')

/-- Test that `re.search(r"\b" + w + r"\b", s)` succeeds, for a literal `w`. -/
def hasBounded (w s : String) : Bool :=
  (List.range (s.data.length + 1)).any (boundedAt w.data s.data)

/-- Test that `re.search(r"\b" + w1 + r"\s+" + w2 + r"\b", s)` succeeds: the two
literals separated by at least one whitespace character, `\b` at the ends. -/
def hasSeq2 (w1 w2 s : String) : Bool :=
  (List.range (s.data.length + 1)).any (fun i =>
    matchesAt w1.data s.data i &&
    (i == 0 || !isWordChar (s.data.getD (i - 1) ' ')) &&
    (let j := i + w1.data.length
     let sp := ((s.data.drop j).takeWhile Char.isWhitespace).length
     decide (1 ≤ sp) && matchesAt w2.data s.data (j + sp) &&
     !isWordChar (s.data.getD (j + sp + w2.data.length) ' ')))

/-- The greeting regexes of `SymptomCheckerBot.greeting_patterns`, applied to
the lowercased message (`_is_greeting`). -/
def is_greeting (message : String) : Bool :=
  let t := lowerStr message
  ["hi", "hello", "hey", "good morning", "good afternoon",
   "good evening"].any (fun w => hasBounded w t) ||
  hasBounded "how are you" t ||
  hasBounded "what's up" t ||
  hasBounded "how's it going" t

/-- Spelled-out counts accepted by the duration regex. -/
def numWords : List String := ["one", "two", "three", "four", "five"]

/-- Unit alternatives of the duration regex, in the regex's order. -/
def unitWords : List String := ["hour", "hours", "day", "days"]

/-- Match the count alternation `(\d+|one|two|three|four|five)` at index `i`,
returning the matched length. -/
def matchNumAt (s : List Char) (i : Nat) : Option Nat :=
  let ds := ((s.drop i).takeWhile Char.isDigit).length
  if 0 < ds then some ds
  else numWords.findSome? (fun w =>
    if matchesAt w.data s i then some w.data.length else none)

/-- Match the unit alternation `(hour|hours|day|days)\b` at index `i`,
returning the matched length. -/
def matchUnitAt (s : List Char) (i : Nat) : Option Nat :=
  unitWords.findSome? (fun w =>
    if matchesAt w.data s i && !isWordChar (s.getD (i + w.data.length) ' ')
    then some w.data.length else none)

/-- Try the whole duration regex
`\b(\d+|one|two|three|four|five)\s*(hour|hours|day|days)\b` at index `i`,
returning `group(0)`. -/
def durAt (s : List Char) (i : Nat) : Option (List Char) :=
  if i == 0 || !isWordChar (s.getD (i - 1) ' ') then
    match matchNumAt s i with
    | none => none
    | some n =>
      let sp := ((s.drop (i + n)).takeWhile Char.isWhitespace).length
      match matchUnitAt s (i + n + sp) with
      | none => none
      | some u => some ((s.drop i).take (n + sp + u))
  else none

/-- Run `re.search` for the duration regex: leftmost match, `group(0)` as a string. -/
def durationSearch (s : String) : Option String :=
  ((List.range (s.data.length + 1)).findSome? (durAt s.data)).map
    (fun cs => ⟨cs⟩)

/-- The facts record produced by `_extract_structured_facts`. -/
structure Facts where
  onset : Option String
  location : Option String
  severity : Option String
  associated_symptoms : List String
  duration : Option String
deriving DecidableEq

/-- The table `location_map` of `_extract_structured_facts`, in source order. -/
def locationMap : List (String × List String) :=
  [("upper right", ["upper right", "right upper", "ruq"]),
   ("upper left", ["upper left", "left upper", "luq"]),
   ("lower right", ["lower right", "right lower", "rlq"]),
   ("lower left", ["lower left", "left lower", "llq"]),
   ("upper abdomen", ["upper abdomen", "upper stomach"]),
   ("lower abdomen", ["lower abdomen", "lower stomach"]),
   ("whole abdomen", ["whole abdomen", "entire abdomen", "all over",
                      "whole stomach"])]

/-- The list `assoc_terms` of `_extract_structured_facts`, in source order. -/
def assocTerms : List String :=
  ["nausea", "vomiting", "diarrhea", "constipation", "fever", "bloating",
   "heartburn", "gas", "loss of appetite", "back pain", "shoulder pain"]

/-- The onset regex `\b(today|this\s+morning|this\s+evening|now|just|since)\b`
succeeds on `t`. -/
def onsetTodayPat (t : String) : Bool :=
  hasBounded "today" t || hasSeq2 "this" "morning" t ||
  hasSeq2 "this" "evening" t || hasBounded "now" t ||
  hasBounded "just" t || hasBounded "since" t

/-- The onset regex `\b(yesterday|last\s+night)\b` succeeds on `t`. -/
def onsetYesterdayPat (t : String) : Bool :=
  hasBounded "yesterday" t || hasSeq2 "last" "night" t

/-- Model of `_extract_structured_facts`. -/
def extract_structured_facts (message : String) : Facts :=
  let t := lowerStr message
  let o1 : Option String := if onsetTodayPat t then some "today" else none
  let onset := if onsetYesterdayPat t then some "yesterday" else o1
  let duration := durationSearch t
  let location := locationMap.findSome? (fun p =>
    if p.2.any (fun pat => substr pat t) then some p.1 else none)
  let severity :=
    if substr "mild" t then some "mild"
    else if substr "moderate" t then some "moderate"
    else if substr "severe" t || substr "worst" t then some "severe"
    else none
  let base := assocTerms.filter (fun term => substr term t)
  let assoc :=
    if substr "vomit" t && !(base.contains "vomiting")
    then base ++ ["vomiting"] else base
  { onset := onset, location := location, severity := severity,
    associated_symptoms := assoc, duration := duration }

/-- Model of `self.current_case`: `associated_symptoms` (a Python `set`) is kept as a
duplicate-free insertion-ordered list. -/
structure CaseState where
  onset : Option String
  location : Option String
  severity : Option String
  associated_symptoms : List String
  duration : Option String
deriving DecidableEq

/-- The empty case created by `__init__`. -/
def emptyCase : CaseState :=
  { onset := none, location := none, severity := none,
    associated_symptoms := [], duration := none }

/-- Python truthiness of an optional string (`if facts.get(...):`):
`None` and the empty string are falsy. -/
def truthy : Option String → Bool
  | none => false
  | some s => !(s == "")

/-- Add the elements of `xs` to the set-as-list `l` (Python `set.update`). -/
def setUnion (l xs : List String) : List String :=
  xs.foldl (fun acc x => if acc.contains x then acc else acc ++ [x]) l

/-- Model of `_update_case_state`. -/
def update_case_state (c : CaseState) (f : Facts) : CaseState :=
  { onset := if truthy f.onset then f.onset else c.onset,
    location := if truthy f.location then f.location else c.location,
    severity := if truthy f.severity then f.severity else c.severity,
    duration := if truthy f.duration then f.duration else c.duration,
    associated_symptoms :=
      if f.associated_symptoms.isEmpty then c.associated_symptoms
      else setUnion c.associated_symptoms f.associated_symptoms }

/-- Lexicographic comparison of character lists by code point (the order
Python uses to compare strings). -/
def lexLe : List Char → List Char → Bool
  | [], _ => true
  | _ :: _, [] => false
  | a :: as, b :: bs =>
    if a.toNat < b.toNat then true
    else if b.toNat < a.toNat then false
    else lexLe as bs

/-- Python string comparison `a <= b`. -/
def strLe (a b : String) : Bool :=
  lexLe a.data b.data

/-- Ascending sort of strings (Python `sorted` on a set of strings). -/
def sortStrings (l : List String) : List String :=
  List.insertionSort (fun a b => strLe a b = true) l

/-- Model of `_case_summary_text`. -/
def case_summary_text (c : CaseState) : String :=
  let parts : List String :=
    (if truthy c.onset then ["onset " ++ c.onset.getD ""] else []) ++
    (if truthy c.duration then ["duration " ++ c.duration.getD ""] else []) ++
    (if truthy c.location then ["location " ++ c.location.getD ""] else []) ++
    (if truthy c.severity then ["severity " ++ c.severity.getD ""] else []) ++
    (if c.associated_symptoms.isEmpty then []
     else ["symptoms " ++
           String.intercalate ", " (sortStrings c.associated_symptoms)])
  if parts.isEmpty then "abdominal pain" else String.intercalate "; " parts

/-- One entry of `medical_data['causes']`. -/
structure Cause where
  condition : String
  description : String
  symptoms : List String
deriving DecidableEq

/-- One entry of `medical_data['home_remedies']`. -/
structure Remedy where
  remedy : String
  description : String
deriving DecidableEq

/-- Model of `self.medical_data`, the structured abdominal-pain dataset. -/
structure MedicalData where
  causes : List Cause
  emergency_symptoms : List String
  home_remedies : List Remedy
  prevention_tips : List String
  when_to_see_doctor : List String
deriving DecidableEq

/-- The minimal fallback returned by `_load_medical_data` when the data file
is absent. -/
def fallbackMedicalData : MedicalData :=
  { causes := [], emergency_symptoms := [], home_remedies := [],
    prevention_tips := [], when_to_see_doctor := [] }

/-- Worker of `dedupKeepFirst`, carrying the set of strings already emitted. -/
def dedupGo (seen : List String) : List String → List String
  | [] => []
  | x :: xs => if x ∈ seen then dedupGo seen xs else x :: dedupGo (x :: seen) xs

/-- Python `list(dict.fromkeys(flags))`: deduplicate keeping the first occurrence. -/
def dedupKeepFirst (l : List String) : List String :=
  dedupGo [] l

/-- The emergency-phrase test of `_red_flag_check`: split the (already
lowercased) phrase on `,`/`:`/`;`, strip each piece, and test every non-empty
piece as a substring of the summary text. -/
def emergencyHit (text item : String) : Bool :=
  ((item.split (fun ch =>
    ch == ',' || ch == ':' || ch == ';')).map String.trim).any
    (fun term => !(term == "") && substr term text)

/-- Model of `_red_flag_check`.  The source reads the raw message nowhere: the
substring tests (including the "blood" test) run against the lowercased
case summary. -/
def red_flag_check (emergencies : List String) (c : CaseState) : List String :=
  let text := lowerStr (case_summary_text c)
  let flags1 := emergencies.foldl (fun acc s =>
    if emergencyHit text (lowerStr s) then acc ++ [lowerStr s] else acc) []
  let flags2 := flags1 ++
    (if c.severity = some "severe" then ["Severe abdominal pain"] else []) ++
    (if "fever" ∈ c.associated_symptoms then ["Pain with fever"] else []) ++
    (if "vomiting" ∈ c.associated_symptoms ∧ substr "blood" text = true
     then ["Vomiting blood"] else [])
  dedupKeepFirst flags2

/-- The composite text built for one cause in `_rank_causes`. -/
def causeText (c : Cause) : String :=
  c.condition ++ ". " ++ c.description ++ ". Symptoms: " ++
  String.intercalate ", " c.symptoms

/-- Stable insertion into a list sorted descending by score (Python
`sorted(..., key=lambda x: x[1], reverse=True)` is a stable descending sort). -/
def insertRanked (x : Cause × Rat) : List (Cause × Rat) → List (Cause × Rat)
  | [] => [x]
  | y :: ys =>
    if Rat.blt x.2 y.2 then y :: insertRanked x ys else x :: y :: ys

/-- Stable descending sort by score. -/
def sortRanked : List (Cause × Rat) → List (Cause × Rat)
  | [] => []
  | x :: xs => insertRanked x (sortRanked xs)

/-- The embedding provider `self.model.encode`: a batch of texts to a batch of
vectors, or a raised exception (`Except.error`). -/
def Encoder : Type :=
  List String → Except Unit (List (List Rat))

/-- The cosine-similarity routine, abstracted over `Rat`. -/
def Sim : Type :=
  List Rat → List Rat → Rat

/-- Model of `_rank_causes`.  The second component records every batch passed to the
embedding provider, in call order, so that "no provider call" is the
statement that this log is empty. -/
def rank_causes (encode : Encoder) (sim : Sim) (d : MedicalData)
    (c : CaseState) : Except Unit (List (Cause × Rat)) × List (List String) :=
  if d.causes.isEmpty then (Except.ok [], [])
  else
    let case_text := case_summary_text c
    let cause_texts := d.causes.map causeText
    match encode [case_text] with
    | Except.error e => (Except.error e, [[case_text]])
    | Except.ok caseVecs =>
      match encode cause_texts with
      | Except.error e => (Except.error e, [[case_text], cause_texts])
      | Except.ok causeVecs =>
        let sims := causeVecs.map (sim (caseVecs.getD 0 []))
        let ranked := sortRanked (d.causes.zip sims)
        (Except.ok (ranked.take 3), [[case_text], cause_texts])

/-- Model of `_build_analysis_response`.  A provider exception propagates: the source
wraps the `encode` calls in no handler. -/
def build_analysis_response (encode : Encoder) (sim : Sim) (d : MedicalData)
    (c : CaseState) : Except Unit String :=
  let summary := case_summary_text c
  let red_flags := red_flag_check d.emergency_symptoms c
  match (rank_causes encode sim d c).1 with
  | Except.error e => Except.error e
  | Except.ok ranked =>
    let lines : List String :=
      ["Thanks for the details. From what you've shared (" ++ summary ++
       "), here are the most likely possibilities based on my training data:"]
      ++ (if ranked.isEmpty then
            ["• I need a bit more detail (location, severity, associated symptoms) to narrow causes."]
          else ranked.map (fun p =>
            "• " ++ p.1.condition ++ ": " ++ p.1.description))
      ++ (if red_flags.isEmpty then
            (if d.home_remedies.isEmpty then []
             else ["\nSelf‑care that may help for mild symptoms:"] ++
               (d.home_remedies.take 4).map (fun r =>
                 "• " ++ r.remedy ++ ": " ++ r.description))
          else
            ["\nBased on red-flag symptoms, I recommend urgent medical attention:"]
            ++ (red_flags.take 5).map (fun f => "• " ++ f))
      ++ (let need : List String :=
            (if truthy c.location then []
             else ["where exactly the pain is located"]) ++
            (if truthy c.severity then []
             else ["how severe it feels (mild, moderate, severe)"]) ++
            (if truthy c.onset || truthy c.duration then []
             else ["when it started and for how long"])
          if need.isEmpty then []
          else ["\nTo improve accuracy, please tell me " ++
                String.intercalate ", " need ++ "."])
      ++ ["\nNote: I share general information about abdominal pain in adults and don’t replace a clinician."]
    Except.ok (String.intercalate "\n" lines)

/-- The list `self.abdominal_pain_responses['causes']`. -/
def abdoCauses : List String :=
  ["Abdominal pain in adults can be caused by various factors including:",
   "• Indigestion or heartburn",
   "• Food poisoning",
   "• Stomach flu (gastroenteritis)",
   "• Irritable bowel syndrome (IBS)",
   "• Constipation",
   "• Gas and bloating",
   "• Appendicitis",
   "• Gallstones",
   "• Kidney stones",
   "• Ulcers",
   "• Inflammatory bowel disease (IBD)"]

/-- The list `self.abdominal_pain_responses['symptoms']`. -/
def abdoSymptoms : List String :=
  ["Common symptoms associated with abdominal pain include:",
   "• Cramping or sharp pain",
   "• Nausea and vomiting",
   "• Loss of appetite",
   "• Fever",
   "• Diarrhea or constipation",
   "• Bloating",
   "• Heartburn",
   "• Pain that radiates to other areas"]

/-- The list `self.abdominal_pain_responses['when_to_seek_help']`. -/
def abdoWhenToSeekHelp : List String :=
  ["Seek immediate medical attention if you experience:",
   "• Severe, sudden abdominal pain",
   "• Pain with fever",
   "• Pain with vomiting blood",
   "• Pain with black, tarry stools",
   "• Pain that lasts more than 24 hours",
   "• Pain that gets worse over time",
   "• Pain with difficulty breathing",
   "• Pain with chest pressure"]

/-- The list `self.abdominal_pain_responses['home_remedies']`. -/
def abdoHomeRemedies : List String :=
  ["For mild abdominal pain, you can try:",
   "• Rest and avoid strenuous activity",
   "• Apply a heating pad to the area",
   "• Drink clear fluids (water, broth)",
   "• Eat bland foods (rice, toast, bananas)",
   "• Avoid spicy, fatty, or acidic foods",
   "• Take over-the-counter pain relievers if appropriate",
   "• Practice relaxation techniques"]

/-- Keyword group for the causes shortcut. -/
def causesGroup : List String := ["cause", "causes", "why", "reason"]

/-- Keyword group for the symptoms shortcut. -/
def symptomsGroup : List String := ["symptom", "symptoms", "sign", "signs"]

/-- Keyword group for the emergency shortcut. -/
def emergencyGroup : List String :=
  ["emergency", "urgent", "hospital", "doctor", "medical attention"]

/-- Keyword group for the home-remedy shortcut. -/
def homeGroup : List String := ["home", "remedy", "treatment", "cure", "help"]

/-- Python `any(word in message_lower for word in group)`. -/
def groupHit (group : List String) (ml : String) : Bool :=
  group.any (fun w => substr w ml)

/-- Model of `_get_abdominal_pain_response`: direct-knowledge shortcuts in priority
order, otherwise fact extraction, case merge and analysis.  Returns the
response (or a propagated provider exception) together with the case state
after the turn. -/
def get_abdominal_pain_response (encode : Encoder) (sim : Sim)
    (d : MedicalData) (c : CaseState) (message : String) :
    Except Unit String × CaseState :=
  let ml := lowerStr message
  if groupHit causesGroup ml then
    (Except.ok (String.intercalate "\n" abdoCauses), c)
  else if groupHit symptomsGroup ml then
    (Except.ok (String.intercalate "\n" abdoSymptoms), c)
  else if groupHit emergencyGroup ml then
    (Except.ok (String.intercalate "\n" abdoWhenToSeekHelp), c)
  else if groupHit homeGroup ml then
    (Except.ok (String.intercalate "\n" abdoHomeRemedies), c)
  else
    let c2 := update_case_state c (extract_structured_facts message)
    (build_analysis_response encode sim d c2, c2)

/-- The keyword list of `_is_out_of_scope`. -/
def broadKeywords : List String :=
  ["abdominal", "stomach", "belly", "gut", "pain", "ache", "cramp",
   "indigestion", "heartburn", "nausea", "vomiting", "diarrhea",
   "constipation", "bloating", "gas", "appendicitis", "ulcer"]

/-- The scope-marking keyword list of `get_response`. -/
def narrowKeywords : List String :=
  ["abdominal", "stomach", "belly", "gut", "pain"]

/-- Model of `_is_out_of_scope`, evaluated against a given sticky-scope value. -/
def is_out_of_scope (inScope : Bool) (message : String) : Bool :=
  let ml := lowerStr message
  !(groupHit broadKeywords ml || inScope || is_greeting message)

/-- The fixed refusal string of `get_response`. -/
def refusal : String :=
  "I apologize, but I'm specifically trained to help with abdominal pain in adults. I can provide information about causes, symptoms, when to seek medical attention, and home remedies related to abdominal pain. Please ask me about abdominal pain or related symptoms."

/-- The fixed greeting strings of `_get_greeting_response`. -/
def greetings : List String :=
  ["Hello! I'm your symptom checker assistant. I'm here to help you understand abdominal pain and related symptoms. How can I assist you today?",
   "Hi there! I'm a medical AI assistant specializing in abdominal pain. I can help answer your questions about symptoms, causes, and when to seek medical attention. What would you like to know?",
   "Hello! I'm here to help you with questions about abdominal pain in adults. I can provide information about causes, symptoms, and treatment options. How may I help you?"]

/-- One entry of `self.conversation_history`: the user text and, once the turn
completed, the bot text (`None` while — or if never — unset). -/
structure HEntry where
  user : String
  bot : Option String
deriving DecidableEq

/-- The mutable attributes of `SymptomCheckerBot` that `get_response`
touches. -/
structure BotState where
  in_scope : Bool
  case : CaseState
  history : List HEntry
deriving DecidableEq

/-- The fresh state built by `__init__`. -/
def initState : BotState :=
  { in_scope := false, case := emptyCase, history := [] }

/-- Model of `get_response`.  The index `pick` resolves the `np.random.choice` over the greeting
strings.  On a propagated provider exception the result is `Except.error`,
the history entry of the turn keeps `bot := none` (the source appends the
user entry first and sets `'bot'` only on completion), and the case merge —
which the source performs before ranking — is retained. -/
def get_response (encode : Encoder) (sim : Sim) (pick : Nat) (d : MedicalData)
    (st : BotState) (message : String) : Except Unit String × BotState :=
  if is_greeting message then
    let resp := greetings.getD (pick % greetings.length) ""
    (Except.ok resp,
     { st with history := st.history ++ [⟨message, some resp⟩] })
  else
    let ml := lowerStr message
    let scope2 := st.in_scope || groupHit narrowKeywords ml
    if is_out_of_scope scope2 message then
      (Except.ok refusal,
       { in_scope := scope2, case := st.case,
         history := st.history ++ [⟨message, some refusal⟩] })
    else
      match get_abdominal_pain_response encode sim d st.case message with
      | (Except.ok r, c2) =>
        (Except.ok r,
         { in_scope := true, case := c2,
           history := st.history ++ [⟨message, some r⟩] })
      | (Except.error e, c2) =>
        (Except.error e,
         { in_scope := true, case := c2,
           history := st.history ++ [⟨message, none⟩] })

/-- A deterministic stub embedding provider that always succeeds. -/
def encStub : Encoder := fun l => Except.ok (l.map (fun _ => [1]))

/-- A stub embedding provider whose every call raises (models a provider
timeout/failure). -/
def encFail : Encoder := fun _ => Except.error ()

/-- A stub similarity routine returning a constant score. -/
def simStub : Sim := fun _ _ => 0

/-- A one-cause dataset, used to exercise the provider-failure path (with an
empty cause list the provider is never called). -/
def gastritisData : MedicalData :=
  { fallbackMedicalData with causes :=
      [{ condition := "Gastritis",
         description := "Inflammation of the stomach lining",
         symptoms := ["nausea"] }] }

/-- A numbered test cause. -/
def mkCause (i : Nat) : Cause :=
  { condition := "condition " ++ toString i,
    description := "description " ++ toString i,
    symptoms := [] }

/-- A ten-cause dataset, used to exercise ranking truncation. -/
def tenCauseData : MedicalData :=
  { fallbackMedicalData with causes := (List.range 10).map mkCause }

lemma mem_dedupGo (x : String) (l : List String) :
    ∀ seen, x ∈ dedupGo seen l ↔ (x ∈ l ∧ x ∉ seen) := by
  induction l with
  | nil => intro seen; simp [dedupGo]
  | cons y ys ih =>
    intro seen
    by_cases h : y ∈ seen
    · simp only [dedupGo, if_pos h, ih, List.mem_cons]
      constructor
      · rintro ⟨hx, hs⟩; exact ⟨Or.inr hx, hs⟩
      · rintro ⟨hx | hx, hs⟩
        · subst hx; exact absurd h hs
        · exact ⟨hx, hs⟩
    · simp only [dedupGo, if_neg h, List.mem_cons, ih]
      constructor
      · rintro (hx | ⟨hx, hs⟩)
        · subst hx; exact ⟨Or.inl rfl, h⟩
        · exact ⟨Or.inr hx, fun hc => hs (Or.inr hc)⟩
      · rintro ⟨hx | hx, hs⟩
        · subst hx; exact Or.inl rfl
        · by_cases hxy : x = y
          · subst hxy; exact Or.inl rfl
          · exact Or.inr ⟨hx, by simp [List.mem_cons, hxy, hs]⟩

lemma mem_dedupKeepFirst (x : String) (l : List String) :
    x ∈ dedupKeepFirst l ↔ x ∈ l := by
  simp [dedupKeepFirst, mem_dedupGo]

lemma mem_emergencyFold (text x : String) (l : List String) :
    ∀ acc,
      x ∈ l.foldl (fun acc s =>
          if emergencyHit text (lowerStr s) then acc ++ [lowerStr s]
          else acc) acc ↔
        (x ∈ acc ∨
         ∃ s, s ∈ l ∧ emergencyHit text (lowerStr s) = true ∧
           x = lowerStr s) := by
  induction l with
  | nil => intro acc; simp
  | cons s l ih =>
    intro acc
    rw [List.foldl_cons, ih]
    by_cases h : emergencyHit text (lowerStr s) = true
    · simp only [if_pos h, List.mem_append, List.mem_cons, List.mem_singleton,
        List.not_mem_nil, or_false]
      constructor
      · rintro ((hx | hx) | ⟨u, hu, hq, he⟩)
        · exact Or.inl hx
        · exact Or.inr ⟨s, Or.inl rfl, h, hx⟩
        · exact Or.inr ⟨u, Or.inr hu, hq, he⟩
      · rintro (hx | ⟨u, hu | hu, hq, he⟩)
        · exact Or.inl (Or.inl hx)
        · subst hu; exact Or.inl (Or.inr he)
        · exact Or.inr ⟨u, hu, hq, he⟩
    · rw [if_neg h]
      constructor
      · rintro (hx | ⟨u, hu, hq, he⟩)
        · exact Or.inl hx
        · exact Or.inr ⟨u, List.mem_cons_of_mem s hu, hq, he⟩
      · rintro (hx | ⟨u, hu, hq, he⟩)
        · exact Or.inl hx
        · rcases List.mem_cons.mp hu with hu2 | hu2
          · subst hu2; exact absurd hq h
          · exact Or.inr ⟨u, hu2, hq, he⟩

lemma lowerChar_ne_V (c : Char) : lowerChar c ≠ 'V' := by
  unfold lowerChar
  split <;> simp_all

lemma lowerStr_ne_VomitingBlood (s : String) :
    lowerStr s ≠ "Vomiting blood" := by
  intro h
  have hV : 'V' ∈ (lowerStr s).data := by
    rw [h]; decide
  have hV2 : 'V' ∈ s.data.map lowerChar := hV
  obtain ⟨c, _, hc⟩ := List.mem_map.mp hV2
  exact lowerChar_ne_V c hc

/-- Claim C1: for every `CaseState` (whatever the emergency-phrase list), the
red-flag check output contains "Severe abdominal pain" whenever the severity
is "severe", and contains "Pain with fever" whenever "fever" is a member of
the associated symptoms. -/
theorem C1_red_flag_severe_and_fever (em : List String) (c : CaseState) :
    (c.severity = some "severe" →
      "Severe abdominal pain" ∈ red_flag_check em c) ∧
    ("fever" ∈ c.associated_symptoms →
      "Pain with fever" ∈ red_flag_check em c) := by
  constructor
  · intro h
    simp [red_flag_check, mem_dedupKeepFirst, List.mem_append, h]
  · intro h
    simp [red_flag_check, mem_dedupKeepFirst, List.mem_append, h]

/-- Witness for C1 at a concrete severe-with-fever case. -/
theorem C1_witness :
    "Severe abdominal pain" ∈
      red_flag_check []
        { emptyCase with severity := some "severe",
                         associated_symptoms := ["fever"] } ∧
    "Pain with fever" ∈
      red_flag_check []
        { emptyCase with severity := some "severe",
                         associated_symptoms := ["fever"] } :=
  ⟨(C1_red_flag_severe_and_fever [] _).1 rfl,
   (C1_red_flag_severe_and_fever [] _).2 (by decide)⟩

/-- Claim C2 is false as stated: with "vomiting" among the associated
symptoms and the raw message "I am vomiting blood" (which contains "blood"),
the source emits no "Vomiting blood" flag — `_red_flag_check` never reads the
raw message; it tests "blood" against the case-summary text. -/
theorem C2_counterexample :
    ¬("Vomiting blood" ∈
        red_flag_check [] { emptyCase with associated_symptoms := ["vomiting"] } ↔
      ("vomiting" ∈
          ({ emptyCase with associated_symptoms := ["vomiting"] } : CaseState).associated_symptoms ∧
        substr "blood" (lowerStr "I am vomiting blood") = true)) := by
  decide

/-- Claim C2 (amended): the red-flag check adds "Vomiting blood" exactly when
"vomiting" is a member of the associated symptoms and the substring "blood"
is present in the lowercased case-summary text (the raw message is not
consulted). -/
theorem C2_amended_vomiting_blood (em : List String) (c : CaseState) :
    ("Vomiting blood" ∈ red_flag_check em c) ↔
      ("vomiting" ∈ c.associated_symptoms ∧
       substr "blood" (lowerStr (case_summary_text c)) = true) := by
  simp only [red_flag_check, mem_dedupKeepFirst, List.mem_append]
  rw [mem_emergencyFold]
  have hfold : ¬∃ s, s ∈ em ∧
      emergencyHit (lowerStr (case_summary_text c)) (lowerStr s) = true ∧
      "Vomiting blood" = lowerStr s := by
    rintro ⟨s, _, _, he⟩
    exact lowerStr_ne_VomitingBlood s he.symm
  have hne1 : "Vomiting blood" ∉
      (if c.severity = some "severe" then ["Severe abdominal pain"]
       else []) := by
    split <;> decide
  have hne2 : "Vomiting blood" ∉
      (if "fever" ∈ c.associated_symptoms then ["Pain with fever"]
       else []) := by
    split <;> decide
  by_cases hc : ("vomiting" ∈ c.associated_symptoms ∧
      substr "blood" (lowerStr (case_summary_text c)) = true)
  · simp [hc, hfold, hne1, hne2]
  · simp [hc, hfold, hne1, hne2]

/-- Witness for the amended C2: a case whose symptom set makes "blood" appear
in the summary does produce the flag. -/
theorem C2_amended_witness :
    "Vomiting blood" ∈
      red_flag_check []
        { emptyCase with associated_symptoms := ["vomiting", "bloody stools"] } :=
  (C2_amended_vomiting_blood [] _).mpr (by decide)

/-- Claim C4: severity extraction checks the substrings in the fixed order
mild, then moderate, then severe/worst, and the first hit wins; in
particular a message containing both "mild" and "severe" extracts "mild". -/
theorem C4_severity_first_hit (message : String) :
    (substr "mild" (lowerStr message) = true →
      (extract_structured_facts message).severity = some "mild") ∧
    (substr "mild" (lowerStr message) = false →
      substr "moderate" (lowerStr message) = true →
      (extract_structured_facts message).severity = some "moderate") ∧
    (substr "mild" (lowerStr message) = false →
      substr "moderate" (lowerStr message) = false →
      (substr "severe" (lowerStr message) = true ∨
        substr "worst" (lowerStr message) = true) →
      (extract_structured_facts message).severity = some "severe") ∧
    (substr "mild" (lowerStr message) = true →
      substr "severe" (lowerStr message) = true →
      (extract_structured_facts message).severity = some "mild") := by
  refine ⟨fun h1 => ?_, fun h1 h2 => ?_, fun h1 h2 h3 => ?_, fun h1 _ => ?_⟩
  · simp [extract_structured_facts, h1]
  · simp [extract_structured_facts, h1, h2]
  · rcases h3 with h3 | h3 <;> simp [extract_structured_facts, h1, h2, h3]
  · simp [extract_structured_facts, h1]

/-- Witness for C4 on a message containing both "mild" and "severe". -/
theorem C4_witness :
    substr "mild" (lowerStr "mild but severe pain") = true ∧
    substr "severe" (lowerStr "mild but severe pain") = true ∧
    (extract_structured_facts "mild but severe pain").severity = some "mild" :=
  ⟨by decide, by decide,
   (C4_severity_first_hit "mild but severe pain").2.2.2 (by decide) (by decide)⟩

lemma truthy_isSome {o : Option String} (h : truthy o = true) :
    o.isSome = true := by
  cases o <;> simp_all [truthy]

lemma truthy_some {o : Option String} (h : truthy o = true) :
    ∃ v, o = some v ∧ v ≠ "" := by
  cases o with
  | none => simp [truthy] at h
  | some v => exact ⟨v, rfl, by simpa [truthy] using h⟩

lemma subset_setUnion (xs : List String) :
    ∀ l x, x ∈ l → x ∈ setUnion l xs := by
  induction xs with
  | nil => intro l x h; exact h
  | cons y ys ih =>
    intro l x h
    have hstep : setUnion l (y :: ys) =
        setUnion (if l.contains y then l else l ++ [y]) ys := rfl
    rw [hstep]
    exact ih _ x (by split <;> simp [h])

/-- Claim C10: the per-turn merge never resets a populated scalar field to
unset, overwrites a scalar only when the extracted facts carry a non-empty
value for it, and only ever grows the associated-symptom set. -/
theorem C10_case_merge_monotone (c : CaseState) (f : Facts) :
    ((c.onset.isSome = true →
        (update_case_state c f).onset.isSome = true) ∧
     (c.location.isSome = true →
        (update_case_state c f).location.isSome = true) ∧
     (c.severity.isSome = true →
        (update_case_state c f).severity.isSome = true) ∧
     (c.duration.isSome = true →
        (update_case_state c f).duration.isSome = true)) ∧
    (∀ x, x ∈ c.associated_symptoms →
        x ∈ (update_case_state c f).associated_symptoms) ∧
    (((update_case_state c f).onset ≠ c.onset →
        ∃ v, f.onset = some v ∧ v ≠ "") ∧
     ((update_case_state c f).location ≠ c.location →
        ∃ v, f.location = some v ∧ v ≠ "") ∧
     ((update_case_state c f).severity ≠ c.severity →
        ∃ v, f.severity = some v ∧ v ≠ "") ∧
     ((update_case_state c f).duration ≠ c.duration →
        ∃ v, f.duration = some v ∧ v ≠ "")) := by
  refine ⟨⟨?_, ?_, ?_, ?_⟩, ?_, ⟨?_, ?_, ?_, ?_⟩⟩
  · intro hc; by_cases h : truthy f.onset = true <;>
      simp [update_case_state, h, truthy_isSome, hc]
  · intro hc; by_cases h : truthy f.location = true <;>
      simp [update_case_state, h, truthy_isSome, hc]
  · intro hc; by_cases h : truthy f.severity = true <;>
      simp [update_case_state, h, truthy_isSome, hc]
  · intro hc; by_cases h : truthy f.duration = true <;>
      simp [update_case_state, h, truthy_isSome, hc]
  · intro x hx
    by_cases h : f.associated_symptoms.isEmpty <;>
      simp only [update_case_state, h, if_pos, if_neg, Bool.false_eq_true,
        not_false_eq_true]
    · simpa [h] using hx
    · simpa [h] using subset_setUnion f.associated_symptoms _ x hx
  · intro hne; by_cases h : truthy f.onset = true
    · exact truthy_some h
    · exact absurd (by simp [update_case_state, h]) hne
  · intro hne; by_cases h : truthy f.location = true
    · exact truthy_some h
    · exact absurd (by simp [update_case_state, h]) hne
  · intro hne; by_cases h : truthy f.severity = true
    · exact truthy_some h
    · exact absurd (by simp [update_case_state, h]) hne
  · intro hne; by_cases h : truthy f.duration = true
    · exact truthy_some h
    · exact absurd (by simp [update_case_state, h]) hne

/-- Witness for C10: a populated case merged with a fresh extraction keeps
its onset and its recorded symptom. -/
theorem C10_witness :
    (update_case_state
        { emptyCase with onset := some "today",
                         associated_symptoms := ["nausea"] }
        (extract_structured_facts "now I also feel queasy")).onset.isSome
        = true ∧
    "nausea" ∈
      (update_case_state
        { emptyCase with onset := some "today",
                         associated_symptoms := ["nausea"] }
        (extract_structured_facts "now I also feel queasy")).associated_symptoms :=
  ⟨(C10_case_merge_monotone _ _).1.1 rfl,
   (C10_case_merge_monotone _ _).2.1 "nausea" (by decide)⟩

/-- Claim C7: for every knowledge base the cause ranker returns at most 3
(cause, score) pairs, and with an empty cause list it returns the empty list
and issues no batch to the embedding provider. -/
theorem C7_rank_truncation_and_empty (encode : Encoder) (sim : Sim)
    (d : MedicalData) (c : CaseState) :
    (∀ l, (rank_causes encode sim d c).1 = Except.ok l → l.length ≤ 3) ∧
    (d.causes = [] → rank_causes encode sim d c = (Except.ok [], [])) := by
  constructor
  · intro l hl
    unfold rank_causes at hl
    by_cases h : d.causes.isEmpty
    · simp only [h, if_pos] at hl
      cases hl
      simp
    · simp only [h, Bool.false_eq_true, if_neg, not_false_eq_true] at hl
      cases he1 : encode [case_summary_text c] with
      | error e => rw [he1] at hl; cases hl
      | ok cv =>
        rw [he1] at hl
        cases he2 : encode (d.causes.map causeText) with
        | error e => rw [he2] at hl; cases hl
        | ok cvs =>
          rw [he2] at hl
          cases hl
          simp only [List.length_take]
          omega
  · intro h
    unfold rank_causes
    simp [h]

/-- Witness for C7: the empty fallback dataset ranks to nothing with no
provider batch, and a ten-cause dataset ranks to at most three pairs. -/
theorem C7_witness :
    rank_causes encStub simStub fallbackMedicalData emptyCase
      = (Except.ok [], []) ∧
    ∃ l, (rank_causes encStub simStub tenCauseData emptyCase).1
      = Except.ok l ∧ l.length ≤ 3 :=
  ⟨(C7_rank_truncation_and_empty encStub simStub fallbackMedicalData
      emptyCase).2 rfl,
   ⟨_, rfl,
    (C7_rank_truncation_and_empty encStub simStub tenCauseData emptyCase).1
      _ rfl⟩⟩

lemma lexLe_total : ∀ as bs, lexLe as bs = true ∨ lexLe bs as = true := by
  intro as
  induction as with
  | nil => intro bs; exact Or.inl rfl
  | cons a as ih =>
    intro bs
    cases bs with
    | nil => exact Or.inr rfl
    | cons b bs =>
      by_cases h1 : a.toNat < b.toNat
      · left; simp [lexLe, h1]
      · by_cases h2 : b.toNat < a.toNat
        · right; simp [lexLe, h2]
        · rcases ih bs with h | h
          · left; simp [lexLe, h1, h2, h]
          · right; simp [lexLe, h1, h2, h]

lemma lexLe_trans :
    ∀ as bs cs, lexLe as bs = true → lexLe bs cs = true →
      lexLe as cs = true := by
  intro as
  induction as with
  | nil => intro bs cs _ _; rfl
  | cons a as ih =>
    intro bs cs h1 h2
    cases bs with
    | nil => simp [lexLe] at h1
    | cons b bs =>
      cases cs with
      | nil => simp [lexLe] at h2
      | cons c cs =>
        by_cases hab : a.toNat < b.toNat
        · by_cases hbc : b.toNat < c.toNat
          · simp [lexLe, Nat.lt_trans hab hbc]
          · by_cases hcb : c.toNat < b.toNat
            · simp [lexLe, hbc, hcb] at h2
            · have hac : a.toNat < c.toNat := by omega
              simp [lexLe, hac]
        · by_cases hba : b.toNat < a.toNat
          · simp [lexLe, hab, hba] at h1
          · by_cases hbc : b.toNat < c.toNat
            · have hac : a.toNat < c.toNat := by omega
              simp [lexLe, hac]
            · by_cases hcb : c.toNat < b.toNat
              · simp [lexLe, hbc, hcb] at h2
              · have hac : ¬a.toNat < c.toNat := by omega
                have hca : ¬c.toNat < a.toNat := by omega
                simp only [lexLe, hab, hba, if_false, if_neg,
                  not_false_eq_true] at h1
                simp only [lexLe, hbc, hcb, if_false, if_neg,
                  not_false_eq_true] at h2
                simp only [lexLe, hac, hca, if_false, if_neg,
                  not_false_eq_true]
                exact ih bs cs h1 h2

lemma lexLe_antisymm :
    ∀ as bs, lexLe as bs = true → lexLe bs as = true → as = bs := by
  intro as
  induction as with
  | nil =>
    intro bs h1 h2
    cases bs with
    | nil => rfl
    | cons b bs => simp [lexLe] at h2
  | cons a as ih =>
    intro bs h1 h2
    cases bs with
    | nil => simp [lexLe] at h1
    | cons b bs =>
      by_cases hab : a.toNat < b.toNat
      · have hba : ¬b.toNat < a.toNat := by omega
        simp [lexLe, hab, hba] at h2
      · by_cases hba : b.toNat < a.toNat
        · simp [lexLe, hab, hba] at h1
        · have heq : a.toNat = b.toNat := by omega
          have hch : a = b := Char.ext (UInt32.ext heq)
          subst hch
          simp only [lexLe, hab, hba, if_false, if_neg,
            not_false_eq_true] at h1 h2
          rw [ih bs h1 h2]

lemma sortStrings_eq_of_perm {l1 l2 : List String} (h : l1.Perm l2) :
    sortStrings l1 = sortStrings l2 := by
  haveI ht : IsTotal String (fun a b => strLe a b = true) :=
    ⟨fun a b => lexLe_total a.data b.data⟩
  haveI htr : IsTrans String (fun a b => strLe a b = true) :=
    ⟨fun a b c h1 h2 => lexLe_trans a.data b.data c.data h1 h2⟩
  haveI has : IsAntisymm String (fun a b => strLe a b = true) :=
    ⟨fun a b h1 h2 => by
      cases a; cases b
      exact congrArg String.mk (lexLe_antisymm _ _ h1 h2)⟩
  exact List.eq_of_perm_of_sorted
    ((List.perm_insertionSort _ l1).trans
      (h.trans (List.perm_insertionSort _ l2).symm))
    (List.sorted_insertionSort _ l1)
    (List.sorted_insertionSort _ l2)

/-- Claim C9: the case summary is a deterministic function of the case: the
associated symptoms render in ascending lexicographic order whatever the
order they were accumulated in, and the all-absent case renders exactly
"abdominal pain". -/
theorem C9_summary_deterministic (c : CaseState) (l1 l2 : List String)
    (h : l1.Perm l2) :
    case_summary_text { c with associated_symptoms := l1 } =
      case_summary_text { c with associated_symptoms := l2 } ∧
    List.Sorted (fun a b => strLe a b = true) (sortStrings l1) ∧
    case_summary_text emptyCase = "abdominal pain" := by
  refine ⟨?_, ?_, rfl⟩
  · have hs : sortStrings l1 = sortStrings l2 := sortStrings_eq_of_perm h
    have hlen : l1.isEmpty = l2.isEmpty := by
      have := h.length_eq
      cases l1 <;> cases l2 <;> simp_all
    simp [case_summary_text, hs, hlen]
  · haveI ht : IsTotal String (fun a b => strLe a b = true) :=
      ⟨fun a b => lexLe_total a.data b.data⟩
    haveI htr : IsTrans String (fun a b => strLe a b = true) :=
      ⟨fun a b c h1 h2 => lexLe_trans a.data b.data c.data h1 h2⟩
    exact List.sorted_insertionSort _ l1

/-- Witness for C9: two accumulation orders of the same symptom set produce
one summary string. -/
theorem C9_witness :
    case_summary_text { emptyCase with associated_symptoms := ["nausea", "fever"] } =
      case_summary_text { emptyCase with associated_symptoms := ["fever", "nausea"] } ∧
    List.Sorted (fun a b => strLe a b = true)
      (sortStrings ["nausea", "fever"]) ∧
    case_summary_text emptyCase = "abdominal pain" :=
  C9_summary_deterministic emptyCase ["nausea", "fever"] ["fever", "nausea"]
    (List.Perm.swap "fever" "nausea" [])

/-- Claim C8: direct-knowledge keyword groups are checked in the strict
priority order causes > symptoms > emergency/urgent > home-remedy; the first
hit returns the corresponding static templated list verbatim, with no fact
extraction and no case-state change on that turn. -/
theorem C8_direct_lookup_priority (encode : Encoder) (sim : Sim)
    (d : MedicalData) (c : CaseState) (message : String) :
    (groupHit causesGroup (lowerStr message) = true →
      get_abdominal_pain_response encode sim d c message =
        (Except.ok (String.intercalate "\n" abdoCauses), c)) ∧
    (groupHit causesGroup (lowerStr message) = false →
      groupHit symptomsGroup (lowerStr message) = true →
      get_abdominal_pain_response encode sim d c message =
        (Except.ok (String.intercalate "\n" abdoSymptoms), c)) ∧
    (groupHit causesGroup (lowerStr message) = false →
      groupHit symptomsGroup (lowerStr message) = false →
      groupHit emergencyGroup (lowerStr message) = true →
      get_abdominal_pain_response encode sim d c message =
        (Except.ok (String.intercalate "\n" abdoWhenToSeekHelp), c)) ∧
    (groupHit causesGroup (lowerStr message) = false →
      groupHit symptomsGroup (lowerStr message) = false →
      groupHit emergencyGroup (lowerStr message) = false →
      groupHit homeGroup (lowerStr message) = true →
      get_abdominal_pain_response encode sim d c message =
        (Except.ok (String.intercalate "\n" abdoHomeRemedies), c)) := by
  refine ⟨fun h1 => ?_, fun h1 h2 => ?_, fun h1 h2 h3 => ?_,
    fun h1 h2 h3 h4 => ?_⟩ <;>
    simp_all [get_abdominal_pain_response]

/-- Witness for C8: a causes-keyword message returns the causes template and
leaves the case untouched. -/
theorem C8_witness :
    get_abdominal_pain_response encStub simStub fallbackMedicalData
        { emptyCase with severity := some "mild" } "what is the cause" =
      (Except.ok (String.intercalate "\n" abdoCauses),
       { emptyCase with severity := some "mild" }) :=
  (C8_direct_lookup_priority encStub simStub fallbackMedicalData
    { emptyCase with severity := some "mild" } "what is the cause").1
    (by decide)

lemma get_response_in_scope_step (encode : Encoder) (sim : Sim) (pick : Nat)
    (d : MedicalData) (st : BotState) (message : String)
    (h : st.in_scope = true) :
    (get_response encode sim pick d st message).2.in_scope = true := by
  unfold get_response
  by_cases hg : is_greeting message = true
  · simp [hg, h]
  · have hoos : is_out_of_scope
        (st.in_scope || groupHit narrowKeywords (lowerStr message)) message
        = false := by
      simp [is_out_of_scope, h]
    simp only [hg, Bool.false_eq_true, if_neg, not_false_eq_true, hoos,
      if_false]
    rcases hab : get_abdominal_pain_response encode sim d st.case message
      with ⟨r, c2⟩
    cases r <;> simp

/-- Claim C5: the session scope flag is sticky — once `in_scope` is true it
stays true over any sequence of later turns; concretely, after turn one
"my stomach hurts" the keyword-free turn two "tell me more" is not answered
with the refusal. -/
theorem C5_scope_sticky (encode : Encoder) (sim : Sim) (pick : Nat)
    (d : MedicalData) (st : BotState) (h : st.in_scope = true) :
    (∀ msgs : List String,
      (msgs.foldl (fun s m => (get_response encode sim pick d s m).2)
          st).in_scope = true) ∧
    (get_response encStub simStub 0 fallbackMedicalData
        ((get_response encStub simStub 0 fallbackMedicalData initState
            "my stomach hurts").2) "tell me more").1.toOption
      ≠ some refusal := by
  constructor
  · intro msgs
    induction msgs generalizing st with
    | nil => exact h
    | cons m ms ih =>
      exact ih _ (get_response_in_scope_step encode sim pick d st m h)
  · decide

/-- Witness for C5: turn one "my stomach hurts" flips the flag; it survives
the keyword-free turn two, which is not refused. -/
theorem C5_witness :
    ((["tell me more"].foldl
        (fun s m => (get_response encStub simStub 0 fallbackMedicalData s m).2)
        ((get_response encStub simStub 0 fallbackMedicalData initState
            "my stomach hurts").2)).in_scope = true) ∧
    (get_response encStub simStub 0 fallbackMedicalData
        ((get_response encStub simStub 0 fallbackMedicalData initState
            "my stomach hurts").2) "tell me more").1.toOption
      ≠ some refusal :=
  ⟨(C5_scope_sticky encStub simStub 0 fallbackMedicalData
      ((get_response encStub simStub 0 fallbackMedicalData initState
          "my stomach hurts").2) (by decide)).1 ["tell me more"],
   (C5_scope_sticky encStub simStub 0 fallbackMedicalData
      ((get_response encStub simStub 0 fallbackMedicalData initState
          "my stomach hurts").2) (by decide)).2⟩

lemma broad_no_hit {ml : String}
    (hb : broadKeywords.all (fun k => !(substr k ml)) = true) :
    groupHit broadKeywords ml = false := by
  rw [groupHit, List.any_eq_false]
  intro k hk
  have := List.all_eq_true.mp hb k hk
  simpa using this

lemma narrow_no_hit {ml : String}
    (hb : broadKeywords.all (fun k => !(substr k ml)) = true) :
    groupHit narrowKeywords ml = false := by
  simp only [broadKeywords, List.all_cons, List.all_nil,
    Bool.and_eq_true, Bool.not_eq_true'] at hb
  obtain ⟨h1, h2, h3, h4, h5, _⟩ := hb
  simp [narrowKeywords, groupHit, h1, h2, h3, h4, h5]

/-- Claim C6: a message that is not a greeting, in a session not yet in
scope, with no hit in the scope vocabulary, is answered with the fixed
refusal string, and neither the case state nor the scope flag changes. -/
theorem C6_out_of_scope_refusal (encode : Encoder) (sim : Sim) (pick : Nat)
    (d : MedicalData) (st : BotState) (message : String)
    (hg : is_greeting message = false)
    (hs : st.in_scope = false)
    (hb : broadKeywords.all (fun k => !(substr k (lowerStr message)))
      = true) :
    get_response encode sim pick d st message =
      (Except.ok refusal,
       { st with history := st.history ++ [⟨message, some refusal⟩] }) := by
  unfold get_response
  have hn := narrow_no_hit hb
  have hbrd := broad_no_hit hb
  have hoos2 : is_out_of_scope st.in_scope message = true := by
    simp [is_out_of_scope, hs, hbrd, hg]
  simp only [hg, Bool.false_eq_true, if_neg, not_false_eq_true, hn,
    Bool.or_false, hoos2, if_true]

/-- Witness for C6: the fresh-session question about the capital of France
gets the verbatim refusal and an otherwise unchanged state. -/
theorem C6_witness :
    get_response encStub simStub 0 fallbackMedicalData initState
        "what's the capital of France" =
      (Except.ok refusal,
       { initState with history :=
           initState.history ++
             [⟨"what's the capital of France", some refusal⟩] }) :=
  C6_out_of_scope_refusal encStub simStub 0 fallbackMedicalData initState
    "what's the capital of France" (by decide) rfl (by decide)

/-- Claim C3 is false as stated: on an in-scope, non-direct-lookup turn whose
embedding-provider call raises, `get_response` does not complete the turn
with a "need more detail" response — the exception propagates as a hard
error and the history entry of the turn has no bot text. -/
theorem C3_counterexample :
    (get_response encFail simStub 0 gastritisData
        { initState with in_scope := true } "mild pain in my stomach").1
      = Except.error () ∧
    (get_response encFail simStub 0 gastritisData
        { initState with in_scope := true } "mild pain in my stomach").2.history
      = [⟨"mild pain in my stomach", none⟩] :=
  ⟨rfl, rfl⟩

/-- Claim C3 (amended): on every in-scope, non-direct-lookup turn whose
embedding-provider calls all fail, `get_response` propagates the failure to
the caller as an error, the case merge of the turn is retained, and the
history records the user message with no bot reply. -/
theorem C3_provider_failure_propagates (encode : Encoder) (sim : Sim)
    (pick : Nat) (d : MedicalData) (st : BotState) (message : String)
    (hE : ∀ b, encode b = Except.error ())
    (hg : is_greeting message = false)
    (hs : st.in_scope = true)
    (h1 : groupHit causesGroup (lowerStr message) = false)
    (h2 : groupHit symptomsGroup (lowerStr message) = false)
    (h3 : groupHit emergencyGroup (lowerStr message) = false)
    (h4 : groupHit homeGroup (lowerStr message) = false)
    (hc : d.causes ≠ []) :
    get_response encode sim pick d st message =
      (Except.error (),
       { in_scope := true,
         case := update_case_state st.case
                   (extract_structured_facts message),
         history := st.history ++ [⟨message, none⟩] }) := by
  have hoos : is_out_of_scope
      (st.in_scope || groupHit narrowKeywords (lowerStr message)) message
      = false := by
    simp [is_out_of_scope, hs]
  have hne : d.causes.isEmpty = false := by
    cases hcs : d.causes with
    | nil => exact absurd hcs hc
    | cons a as => rfl
  have hrank : (rank_causes encode sim d
      (update_case_state st.case (extract_structured_facts message))).1
      = Except.error () := by
    unfold rank_causes
    simp only [hne, Bool.false_eq_true, if_neg, not_false_eq_true]
    rw [hE]
  have hab : get_abdominal_pain_response encode sim d st.case message =
      (Except.error (),
       update_case_state st.case (extract_structured_facts message)) := by
    unfold get_abdominal_pain_response
    simp only [h1, h2, h3, h4, Bool.false_eq_true, if_neg,
      not_false_eq_true]
    unfold build_analysis_response
    rw [hrank]
  unfold get_response
  simp only [hg, Bool.false_eq_true, if_neg, not_false_eq_true, hoos,
    if_false, hab]

/-- Witness for the amended C3 at the concrete failing turn. -/
theorem C3_witness :
    get_response encFail simStub 0 gastritisData
        { initState with in_scope := true } "mild pain in my stomach" =
      (Except.error (),
       { in_scope := true,
         case := update_case_state initState.case
                   (extract_structured_facts "mild pain in my stomach"),
         history := [⟨"mild pain in my stomach", none⟩] }) :=
  C3_provider_failure_propagates encFail simStub 0 gastritisData
    { initState with in_scope := true } "mild pain in my stomach"
    (fun _ => rfl) (by decide) rfl (by decide) (by decide) (by decide)
    (by decide) (by decide)
